import Mathlib

/-!
Verification of the report-lifecycle core of the CivicConnect server.

The definitions below are a shallow embedding of the JavaScript source:
`src/server/src/api/models/report.model.js`,
`src/server/src/api/models/notification.model.js` (src/unnamed/part_004),
`src/server/src/api/controllers/report.controller.js`,
the admin controller (src/unnamed/part_002) and
the auth controller (src/unnamed/part_001).
Mongo ObjectIds are modelled as strings, timestamps as integers
(milliseconds), and each Express handler as a pure function from its inputs
and the relevant database state to an `Except`-style outcome, where an
`error` outcome corresponds to a handler that returns before any mutation.
-/

namespace Civic

abbrev UserId := String

abbrev ReportId := String

/-- Roles from user.model.js: `role` is one of user, employee, admin. -/
inductive Role
  | user
  | employee
  | admin
deriving DecidableEq, Repr

/-- Report status enum from report.model.js. -/
inductive Status
  | submitted
  | in_review
  | assigned
  | in_progress
  | resolved
  | closed
deriving DecidableEq, Repr

/-- Report category enum from report.model.js. -/
inductive Category
  | road_issue
  | water_issue
  | electricity_issue
  | waste_management
  | public_safety
  | other
deriving DecidableEq, Repr

/-- Report priority enum from report.model.js. -/
inductive Priority
  | low
  | medium
  | high
  | critical
deriving DecidableEq, Repr

/-- The string stored in Mongo for a status value. -/
def statusToStr : Status → String
  | .submitted => "submitted"
  | .in_review => "in_review"
  | .assigned => "assigned"
  | .in_progress => "in_progress"
  | .resolved => "resolved"
  | .closed => "closed"

/-- The string stored in Mongo for a category value. -/
def categoryToStr : Category → String
  | .road_issue => "road_issue"
  | .water_issue => "water_issue"
  | .electricity_issue => "electricity_issue"
  | .waste_management => "waste_management"
  | .public_safety => "public_safety"
  | .other => "other"

/-- The string stored in Mongo for a priority value. -/
def priorityToStr : Priority → String
  | .low => "low"
  | .medium => "medium"
  | .high => "high"
  | .critical => "critical"

/-- Timeline sub-document of report.model.js: {status, timestamp, comment, updatedBy}. -/
structure TimelineEntry where
  status : Status
  timestamp : Int
  comment : String
  updatedBy : UserId
deriving DecidableEq, Repr

/-- Feedback sub-document of report.model.js: {rating, comment, submittedAt}. -/
structure Feedback where
  rating : Nat
  comment : String
  submittedAt : Int
deriving DecidableEq, Repr

/-- Report document from report.model.js.  `location.address.city` is kept as
`city` (the only address component the controllers consult) and images are
kept as their URL strings. -/
structure Report where
  id : ReportId
  title : String
  description : String
  category : Category
  priority : Priority
  status : Status
  city : Option String
  images : List String
  submittedBy : UserId
  assignedTo : Option UserId
  timeline : List TimelineEntry
  feedback : Option Feedback
  createdAt : Int
  updatedAt : Int
deriving DecidableEq, Repr

/-- User document (the fields the controllers consult). -/
structure UserRec where
  id : UserId
  firstName : String
  lastName : String
  email : String
  role : Role
  isActive : Bool
deriving DecidableEq, Repr

/-- Notification type enum from notification.model.js. -/
inductive NType
  | report_status
  | assignment
  | feedback
  | system
  | message
deriving DecidableEq, Repr

/-- Notification priority enum from notification.model.js. -/
inductive NPriority
  | low
  | normal
  | high
deriving DecidableEq, Repr

/-- Notification document from notification.model.js. -/
structure Notification where
  recipient : UserId
  ntype : NType
  title : String
  message : String
  relatedTo : Option ReportId
  isRead : Bool
  readAt : Option Int
  priority : NPriority
deriving DecidableEq, Repr

/-- Error outcomes used by the controllers (ApiError status codes):
400 → `badRequest`, 403 → `forbidden`, 404 → `notFound`. -/
inductive Err
  | badRequest
  | forbidden
  | notFound
deriving DecidableEq, Repr

/-- Method `addTimelineEvent` of report.model.js (lines 101-110): push a
timeline entry carrying the new status and set `status` to that value, in
one save. -/
def Report.addTimelineEvent (r : Report) (status : Status) (comment : String)
    (userId : UserId) (now : Int) : Report :=
  { r with
    timeline := r.timeline ++
      [{ status := status, timestamp := now, comment := comment, updatedBy := userId }]
    status := status
    updatedAt := now }

/-- Method `markAsRead` of notification.model.js (lines 56-60): set `isRead`
to true and `readAt` to the current time, unconditionally. -/
def Notification.markAsRead (n : Notification) (now : Int) : Notification :=
  { n with isRead := true, readAt := some now }

/-- Handler `updateReportStatus` of report.controller.js (lines 320-373),
applied to a report that was found.  Users may only move a `resolved` report
to `closed`; employees are rejected when the report is assigned to a
different employee and may only target `in_progress` or `resolved`; admins
are unrestricted.  On success a timeline event is appended and a
`report_status` notification is created for the submitter. -/
def updateReportStatus (role : Role) (uid : UserId) (status : Status)
    (comment : String) (now : Int) (r : Report) :
    Except Err (Report × Notification) :=
  match role with
  | .user =>
    if status ≠ Status.closed ∨ r.status ≠ Status.resolved then
      .error .forbidden
    else
      .ok (mk status comment now r)
  | .employee =>
    if assignedToOther r uid then
      .error .forbidden
    else if ¬ (status = Status.in_progress ∨ status = Status.resolved) then
      .error .badRequest
    else
      .ok (mk status comment now r)
  | .admin => .ok (mk status comment now r)
where
  /-- True when `report.assignedTo && report.assignedTo.toString() !== req.user._id.toString()`. -/
  assignedToOther (r : Report) (uid : UserId) : Bool :=
    match r.assignedTo with
    | some e => e ≠ uid
    | none => false
  /-- The success path: timeline append plus the submitter notification. -/
  mk (status : Status) (comment : String) (now : Int) (r : Report) :
      Report × Notification :=
    (r.addTimelineEvent status comment uid now,
     { recipient := r.submittedBy
       ntype := .report_status
       title := "Report Status Updated"
       message := "Your report \"" ++ r.title ++ "\" has been updated to "
         ++ (statusToStr status).replace "_" " "
       relatedTo := some r.id
       isRead := false
       readAt := none
       priority := .normal })

/-- Handler `assignReport` of report.controller.js (lines 381-432), applied
to a report that was found; `employee` is the result of the `User.findById`
lookup for the requested employee id. -/
def assignReport (callerRole : Role) (caller : UserId) (employee : Option UserRec)
    (comment : Option String) (now : Int) (r : Report) :
    Except Err (Report × Notification) :=
  if callerRole ≠ Role.admin then
    .error .forbidden
  else
    match employee with
    | none => .error .badRequest
    | some e =>
      if e.role ≠ Role.employee then
        .error .badRequest
      else
        let r1 : Report := { r with assignedTo := some e.id, status := Status.assigned }
        let r2 := r1.addTimelineEvent Status.assigned
          (comment.getD "Report assigned to employee") caller now
        .ok (r2,
          { recipient := e.id
            ntype := .assignment
            title := "New Report Assigned"
            message := "You have been assigned to report: " ++ r.title
            relatedTo := some r.id
            isRead := false
            readAt := none
            priority := if r.priority = Priority.critical then .high else .normal })

/-- The "Feedback Received" notification `addFeedback` creates for the
assigned employee, when there is one. -/
def feedbackNote (e : UserId) (r : Report) : Notification :=
  { recipient := e
    ntype := NType.feedback
    title := "Feedback Received"
    message := "Feedback received for report: " ++ r.title
    relatedTo := some r.id
    isRead := false
    readAt := none
    priority := .normal }

/-- Handler `addFeedback` of report.controller.js (lines 440-493), applied to
a report that was found.  Only the submitter, only while status is exactly
`resolved`; there is no check that feedback already exists.  On success the
feedback is stored and the report is closed via `addTimelineEvent`. -/
def addFeedback (uid : UserId) (rating : Nat) (comment : String) (now : Int)
    (r : Report) : Except Err (Report × List Notification) :=
  if r.submittedBy ≠ uid then
    .error .forbidden
  else if r.status ≠ Status.resolved then
    .error .badRequest
  else
    .ok (({ r with feedback := some { rating := rating, comment := comment, submittedAt := now } }
            : Report).addTimelineEvent Status.closed "Feedback provided and report closed" uid now,
         match r.assignedTo with
         | some e => [feedbackNote e r]
         | none => [])

/-- Handler `register` of the auth controller (src/unnamed/part_001, lines
31-66).  `existingEmails` stands for the `User.findOne({email})` lookup and
`newId` for the id Mongo generates.  The created role is
`role === 'employee' ? 'employee' : 'user'`. -/
def register (existingEmails : List String) (firstName lastName email _password role : String)
    (newId : UserId) : Except Err UserRec :=
  if existingEmails.contains email then
    .error .badRequest
  else
    .ok { id := newId
          firstName := firstName
          lastName := lastName
          email := email
          role := if role = "employee" then Role.employee else Role.user
          isActive := true }

/-- The check `mongoose.Types.ObjectId.isValid` performed by the bulk
handlers: a 24-character hex string (or any 12-character string, the
12-byte-buffer case). -/
def isValidObjectId (s : String) : Bool :=
  s.length = 12 ||
    (s.length = 24 && s.data.all fun c =>
      c.isDigit || ('a' ≤ c && c ≤ 'f') || ('A' ≤ c && c ≤ 'F'))

/-- The database state the bulk handlers read and write. -/
structure Store where
  reports : List Report
  users : List UserRec
deriving DecidableEq, Repr

/-- Outcome of a bulk handler: the new store, the notifications created and
the reported count of affected reports. -/
structure BulkOutcome where
  store : Store
  notes : List Notification
  count : Nat
deriving DecidableEq, Repr

/-- The `Report.find({_id: {$in: ids}})` lookup the bulk handlers share. -/
def bulkFound (ids : List ReportId) (st : Store) : List Report :=
  st.reports.filter fun r => ids.contains r.id

/-- The "Report Resolved" notification `bulkUpdateReportStatus` creates for
a report's submitter. -/
def resolvedNote (r : Report) : Notification :=
  { recipient := r.submittedBy
    ntype := NType.report_status
    title := "Report Resolved"
    message := "Your report \"" ++ r.title ++ "\" has been resolved."
    relatedTo := some r.id
    isRead := false
    readAt := none
    priority := .normal }

/-- The "Report Closed" notification `bulkDeleteReports` creates for a
report's submitter. -/
def closedNote (r : Report) : Notification :=
  { recipient := r.submittedBy
    ntype := NType.report_status
    title := "Report Closed"
    message := "Your report \"" ++ r.title ++ "\" has been closed."
    relatedTo := some r.id
    isRead := false
    readAt := none
    priority := .normal }

/-- The assignment notification `bulkAssignReports` creates for the
assignee, one per report. -/
def assignNote (assigneeId : UserId) (r : Report) : Notification :=
  { recipient := assigneeId
    ntype := NType.assignment
    title := "New Report Assigned"
    message := "You have been assigned a new report: \"" ++ r.title ++ "\""
    relatedTo := some r.id
    isRead := false
    readAt := none
    priority := .normal }

/-- Handler `bulkUpdateReportStatus` of the admin controller
(src/unnamed/part_002, lines 732-799).  The empty-list and ObjectId-validity
checks run before the `Report.find`; ids that resolve to no report are
silently dropped; an empty found set is a 404.  Each found report gets a
timeline event, and a submitter notification is created only when the new
status is `resolved`.  The `status` argument is already one of the six enum
values, mirroring the `validStatuses.includes(status)` check. -/
def bulkUpdateReportStatus (uid : UserId) (reportIds : List ReportId)
    (status : Status) (comment : Option String) (now : Int) (st : Store) :
    Except Err BulkOutcome :=
  if reportIds.isEmpty then
    .error .badRequest
  else if ¬ reportIds.all isValidObjectId then
    .error .badRequest
  else if (bulkFound reportIds st).isEmpty then
    .error .notFound
  else
    .ok { store := { st with reports := st.reports.map (fun r =>
            if reportIds.contains r.id then
              r.addTimelineEvent status
                (comment.getD ("Bulk status update to " ++ statusToStr status)) uid now
            else r) }
          notes := (bulkFound reportIds st).filterMap (fun r =>
            if status = Status.resolved then some (resolvedNote r) else none)
          count := (bulkFound reportIds st).length }

/-- Handler `bulkAssignReports` of the admin controller (src/unnamed/part_002,
lines 807-886).  Validation order: non-empty list, valid assignee id, valid
report ids, assignee exists, assignee role is employee, found set non-empty.
Every found report is reassigned with an `assigned` timeline event and one
assignment notification to the assignee. -/
def bulkAssignReports (uid : UserId) (reportIds : List ReportId)
    (assigneeId : String) (now : Int) (st : Store) : Except Err BulkOutcome :=
  if reportIds.isEmpty then
    .error .badRequest
  else if ¬ isValidObjectId assigneeId then
    .error .badRequest
  else if ¬ reportIds.all isValidObjectId then
    .error .badRequest
  else
    match st.users.find? fun u => u.id = assigneeId with
    | none => .error .notFound
    | some assignee =>
      if assignee.role ≠ Role.employee then
        .error .badRequest
      else if (bulkFound reportIds st).isEmpty then
        .error .notFound
      else
        .ok { store := { st with reports := st.reports.map (fun r =>
                if reportIds.contains r.id then
                  ({ r with assignedTo := some assigneeId } : Report).addTimelineEvent
                    Status.assigned
                    ("Assigned to " ++ assignee.firstName ++ " " ++ assignee.lastName)
                    uid now
                else r) }
              notes := (bulkFound reportIds st).map (assignNote assigneeId)
              count := (bulkFound reportIds st).length }

/-- Handler `bulkDeleteReports` of the admin controller (src/unnamed/part_002,
lines 894-954): soft delete by closing.  Every found report gets a `closed`
timeline event and one `report_status` notification to its submitter. -/
def bulkDeleteReports (uid : UserId) (reportIds : List ReportId)
    (reason : Option String) (now : Int) (st : Store) : Except Err BulkOutcome :=
  if reportIds.isEmpty then
    .error .badRequest
  else if ¬ reportIds.all isValidObjectId then
    .error .badRequest
  else if (bulkFound reportIds st).isEmpty then
    .error .notFound
  else
    .ok { store := { st with reports := st.reports.map (fun r =>
            if reportIds.contains r.id then
              r.addTimelineEvent Status.closed
                (reason.getD "Report closed by administrator") uid now
            else r) }
          notes := (bulkFound reportIds st).map closedNote
          count := (bulkFound reportIds st).length }

/-- Store-level wrapper of `updateReportStatus`: the `Report.findById` lookup
followed by the handler; an error outcome leaves the store as it was (the
handler returns before any save). -/
def updateReportStatusInStore (role : Role) (uid : UserId) (rid : ReportId)
    (status : Status) (comment : String) (now : Int) (st : Store) :
    Store × Option Err :=
  match st.reports.find? fun r => r.id = rid with
  | none => (st, some .notFound)
  | some r =>
    match updateReportStatus role uid status comment now r with
    | .error e => (st, some e)
    | .ok (r', _) =>
      ({ st with reports := st.reports.map fun x => if x.id = rid then r' else x }, none)

/-- Query parameters of `getReports` (report.controller.js lines 202-273).
`page` and `limit` carry their parsed defaults (1 and 10). -/
structure GetReportsParams where
  status : Option String
  category : Option String
  priority : Option String
  page : Nat
  limit : Nat
deriving DecidableEq, Repr

/-- The user-supplied filters of `getReports`: each of status, category and
priority, when present, is a plain string equality on the stored field. -/
def matchesUserFilters (p : GetReportsParams) (r : Report) : Bool :=
  (match p.status with
   | none => true
   | some s => statusToStr r.status = s) &&
  (match p.category with
   | none => true
   | some c => categoryToStr r.category = c) &&
  (match p.priority with
   | none => true
   | some pr => priorityToStr r.priority = pr)

/-- The role clause `getReports` adds to the query: users see their own
reports, employees see reports assigned to them or unassigned ones in
submitted/in_review, admins get no extra clause. -/
def roleScope (role : Role) (uid : UserId) (r : Report) : Bool :=
  match role with
  | .user => r.submittedBy = uid
  | .employee =>
    r.assignedTo = some uid ||
      (r.assignedTo = none && (r.status = Status.submitted || r.status = Status.in_review))
  | .admin => true

/-- The full Mongo query `getReports` executes: the conjunction of the
user-supplied filters and the role clause. -/
def matchesGetReports (p : GetReportsParams) (role : Role) (uid : UserId)
    (r : Report) : Bool :=
  matchesUserFilters p r && roleScope role uid r

/-- Insertion step for the default `createdAt` descending sort. -/
def insertByCreatedAtDesc (r : Report) : List Report → List Report
  | [] => [r]
  | x :: xs =>
    if x.createdAt ≤ r.createdAt then r :: x :: xs
    else x :: insertByCreatedAtDesc r xs

/-- The default result ordering of `getReports`: sort by `createdAt`
descending. -/
def sortByCreatedAtDesc : List Report → List Report
  | [] => []
  | x :: xs => insertByCreatedAtDesc x (sortByCreatedAtDesc xs)

/-- JavaScript `Math.ceil(total / limit)` on non-negative integers with a
positive divisor. -/
def ceilDiv (total limit : Nat) : Nat :=
  (total + limit - 1) / limit

/-- Pagination block of the `getReports` response. -/
structure PageMeta where
  currentPage : Nat
  totalPages : Nat
  limit : Nat
deriving DecidableEq, Repr

/-- Response of `getReports`: the page of reports, the page size actually
returned, the total matching count and the pagination block. -/
structure GetReportsResult where
  reports : List Report
  count : Nat
  total : Nat
  pagination : PageMeta
deriving DecidableEq, Repr

/-- Handler `getReports` of report.controller.js (lines 202-273): build the
query, sort createdAt-descending (the default), skip `(page-1)*limit`, take
`limit`, and count the full match set for the pagination block. -/
def getReports (p : GetReportsParams) (role : Role) (uid : UserId)
    (reports : List Report) : GetReportsResult :=
  let filtered := reports.filter (matchesGetReports p role uid)
  let sorted := sortByCreatedAtDesc filtered
  let skip := (p.page - 1) * p.limit
  let pageReports := (sorted.drop skip).take p.limit
  { reports := pageReports
    count := pageReports.length
    total := filtered.length
    pagination :=
      { currentPage := p.page
        totalPages := ceilDiv filtered.length p.limit
        limit := p.limit } }

/-- Modelled from the spec (§4.1 visibility rules, glossary "visibility
scope"): admin sees all reports; an employee sees reports assigned to them
plus unassigned reports with status in submitted/in_review; a user sees only
reports they submitted.  Written from the spec's words for comparison with
the code's `roleScope`. -/
def specVisibilityScope (role : Role) (uid : UserId) (r : Report) : Bool :=
  match role with
  | .admin => true
  | .employee =>
    r.assignedTo = some uid ||
      (r.assignedTo = none && (r.status = Status.submitted || r.status = Status.in_review))
  | .user => r.submittedBy = uid

/-- An Express query value as the advanced-search handler receives it:
either a plain string or an array (a repeated query parameter). -/
inductive QueryVal
  | str (s : String)
  | arr (l : List String)
deriving DecidableEq, Repr

/-- Query parameters of `advancedReportSearch` (src/unnamed/part_002, lines
962-1231) that shape the filter predicate. -/
structure SearchParams where
  search : Option String
  status : Option QueryVal
  category : Option QueryVal
  priority : Option QueryVal
  assignedTo : Option String
  submittedBy : Option String
  dateFrom : Option Int
  dateTo : Option Int
  location : Option String
  hasImages : Option String
  hasFeedback : Option String
deriving DecidableEq, Repr

/-- A `SearchParams` with every filter omitted. -/
def emptySearchParams : SearchParams :=
  { search := none, status := none, category := none, priority := none
    assignedTo := none, submittedBy := none, dateFrom := none, dateTo := none
    location := none, hasImages := none, hasFeedback := none }

/-- The status/category/priority filter of `advancedReportSearch`: absent
means no constraint; an array (repeated parameter) becomes `$in`; anything
else is a single equality against the stored string. -/
def matchesIn (p : Option QueryVal) (field : String) : Bool :=
  match p with
  | none => true
  | some (.str s) => field = s
  | some (.arr l) => l.contains field

/-- Case-insensitive substring test, the model of `$regex` with option `i`
on a plain (regex-metacharacter-free) pattern. -/
def strContainsCI (hay pat : String) : Bool :=
  let h := hay.toLower.data
  let p := pat.toLower.data
  (List.range (h.length + 1)).any fun i => p.isPrefixOf (h.drop i)

/-- The filter predicate `advancedReportSearch` builds: text search over
title or description, the three `matchesIn` filters, the `unassigned`
sentinel for `assignedTo` (an invalid non-sentinel id adds no clause),
`submittedBy` when a valid id, inclusive creation-date bounds, city regex
(absent city never matches), and the image/feedback existence flags compared
against the literal strings true and false. -/
def matchesAdvanced (p : SearchParams) (r : Report) : Bool :=
  (match p.search with
   | none => true
   | some s => strContainsCI r.title s || strContainsCI r.description s) &&
  matchesIn p.status (statusToStr r.status) &&
  matchesIn p.category (categoryToStr r.category) &&
  matchesIn p.priority (priorityToStr r.priority) &&
  (match p.assignedTo with
   | none => true
   | some v =>
     if v = "unassigned" then r.assignedTo = none
     else if isValidObjectId v then r.assignedTo = some v
     else true) &&
  (match p.submittedBy with
   | none => true
   | some v => if isValidObjectId v then r.submittedBy = v else true) &&
  (match p.dateFrom with
   | none => true
   | some d => d ≤ r.createdAt) &&
  (match p.dateTo with
   | none => true
   | some d => r.createdAt ≤ d) &&
  (match p.location with
   | none => true
   | some loc =>
     match r.city with
     | none => false
     | some c => strContainsCI c loc) &&
  (match p.hasImages with
   | none => true
   | some v =>
     if v = "true" then ¬ r.images.isEmpty
     else if v = "false" then r.images.isEmpty
     else true) &&
  (match p.hasFeedback with
   | none => true
   | some v =>
     if v = "true" then r.feedback.isSome
     else if v = "false" then ¬ r.feedback.isSome
     else true)

/-- Splitting a character list at every occurrence of a separator. -/
def splitOnChar (sep : Char) : List Char → List (List Char)
  | [] => [[]]
  | c :: cs =>
    if c = sep then [] :: splitOnChar sep cs
    else
      match splitOnChar sep cs with
      | [] => [[c]]
      | h :: t => (c :: h) :: t

/-- Modelled from the spec (§4.3): a comma-list in status/category/priority
"must be treated as is-any-of" — the string is split on commas and the
report matches when its field value equals any piece.  Written from the
spec's words for comparison with the code's `matchesIn`. -/
def specCommaAnyOf (p : Option String) (field : String) : Bool :=
  match p with
  | none => true
  | some s => (splitOnChar ',' s.data).contains field.data

/-- The `$match` stage shared by the two resolution-time pipelines
(getDashboardAnalytics and getSystemStatistics): current status `resolved`
and at least one timeline entry with status `resolved`. -/
def resolvedMatched (reports : List Report) : List Report :=
  reports.filter fun r =>
    r.status = Status.resolved && r.timeline.any fun e => e.status = Status.resolved

/-- Mongo `$avg` over a group: null (none) when there are no numeric values,
otherwise the exact rational mean. -/
def mongoAvg (l : List Int) : Option Rat :=
  if l.isEmpty then none else some ((l.sum : Rat) / (l.length : Rat))

/-- JavaScript `Math.round`: the floor of x + 1/2 (ties round toward +∞). -/
def jsRound (x : Rat) : Int :=
  Rat.floor (x + 1 / 2)

/-- Timestamp of the first timeline entry with status `resolved`
(`$arrayElemAt` at index 0 of the `$filter` on the timeline). -/
def firstResolvedTimestamp (tl : List TimelineEntry) : Option Int :=
  ((tl.filter fun e => e.status = Status.resolved).head?).map fun e => e.timestamp

/-- Per-report resolution time of `getSystemStatistics` (src/unnamed/part_002,
lines 583-625): the first resolved timeline timestamp (extracted with `$map`
over the `$filter` result) minus `createdAt`, in milliseconds. -/
def sysResolutionTimeMs (r : Report) : Option Int :=
  (firstResolvedTimestamp r.timeline).map fun t => t - r.createdAt

/-- Per-report resolution time of `getDashboardAnalytics`
(src/unnamed/part_002, lines 221-251).  The stage is written as
`{ $arrayElemAt: [ { $filter: ... }, 0 ] }.timestamp` — a JavaScript
property access on a freshly built object literal, which evaluates to
`undefined` (serialized as null) rather than a Mongo field path, so the
`$subtract` has a null operand and yields null for every report. -/
def dashResolutionTimeMs (_r : Report) : Option Int :=
  let firstResolvedField : Option Int := none
  firstResolvedField.map fun t => t - _r.createdAt

/-- The `averageResolutionHours` figure of `getSystemStatistics`: 0 when no
report matches, else `Math.round(avg / (1000*60*60))` of the `$avg` of the
per-report millisecond times (a null average is coerced to 0 by the
JavaScript division). -/
def systemStatsAvgResolutionHours (reports : List Report) : Int :=
  let matched := resolvedMatched reports
  if matched.isEmpty then 0
  else
    match mongoAvg (matched.filterMap sysResolutionTimeMs) with
    | none => 0
    | some a => jsRound (a / (1000 * 60 * 60))

/-- The `averageResolutionHours` figure of `getDashboardAnalytics`, same
shape but over `dashResolutionTimeMs`. -/
def dashboardAvgResolutionHours (reports : List Report) : Int :=
  let matched := resolvedMatched reports
  if matched.isEmpty then 0
  else
    match mongoAvg (matched.filterMap dashResolutionTimeMs) with
    | none => 0
    | some a => jsRound (a / (1000 * 60 * 60))

/-! ### Invariants and helper lemmas -/

/-- The §3 Report invariant: `status` equals the status of the last timeline
entry. -/
def statusMatchesTimeline (r : Report) : Prop :=
  r.timeline.getLast?.map TimelineEntry.status = some r.status

theorem addTimelineEvent_statusMatches (r : Report) (s : Status) (c : String)
    (u : UserId) (t : Int) : statusMatchesTimeline (r.addTimelineEvent s c u t) := by
  unfold statusMatchesTimeline Report.addTimelineEvent
  simp

/-- A sample report: unassigned, freshly submitted by "u1". -/
def rC2 : Report :=
  { id := "aaaaaaaaaaaaaaaaaaaaaaaa"
    title := "Pothole on 5th"
    description := "Deep pothole"
    category := .road_issue
    priority := .medium
    status := .submitted
    city := some "Springfield"
    images := []
    submittedBy := "u1"
    assignedTo := none
    timeline := [{ status := .submitted, timestamp := 0, comment := "Report submitted", updatedBy := "u1" }]
    feedback := none
    createdAt := 0
    updatedAt := 0 }

/-- A default notification record, used only as a `getD` fallback in closed
statements. -/
def noteDefault : Notification :=
  { recipient := "", ntype := .system, title := "", message := ""
    relatedTo := none, isRead := false, readAt := none, priority := .normal }

theorem updateReportStatus_ok_statusMatches (role : Role) (uid : UserId)
    (s : Status) (c : String) (now : Int) (r : Report)
    (out : Report × Notification) (h : updateReportStatus role uid s c now r = .ok out) :
    statusMatchesTimeline out.1 := by
  cases role <;> unfold updateReportStatus at h <;>
    simp only [updateReportStatus.mk] at h
  · split at h
    · exact absurd h (by simp)
    · cases h
      exact addTimelineEvent_statusMatches ..
  · split at h
    · exact absurd h (by simp)
    · split at h
      · exact absurd h (by simp)
      · cases h
        exact addTimelineEvent_statusMatches ..
  · cases h
    exact addTimelineEvent_statusMatches ..

theorem assignReport_ok_statusMatches (callerRole : Role) (caller : UserId)
    (employee : Option UserRec) (c : Option String) (now : Int) (r : Report)
    (out : Report × Notification) (h : assignReport callerRole caller employee c now r = .ok out) :
    statusMatchesTimeline out.1 := by
  unfold assignReport at h
  split at h
  · exact absurd h (by simp)
  · match employee, h with
    | none, h => exact absurd h (by simp)
    | some e, h =>
      simp only at h
      split at h
      · exact absurd h (by simp)
      · cases h
        exact addTimelineEvent_statusMatches ..

theorem addFeedback_ok_statusMatches (uid : UserId) (rating : Nat) (c : String)
    (now : Int) (r : Report) (out : Report × List Notification)
    (h : addFeedback uid rating c now r = .ok out) : statusMatchesTimeline out.1 := by
  unfold addFeedback at h
  split at h
  · exact absurd h (by simp)
  · split at h
    · exact absurd h (by simp)
    · cases h
      exact addTimelineEvent_statusMatches ..

theorem mem_map_update_statusMatches (l : List Report) (cond : Report → Bool)
    (f : Report → Report) (hf : ∀ r, statusMatchesTimeline (f r))
    (hl : ∀ r ∈ l, statusMatchesTimeline r) :
    ∀ r' ∈ l.map (fun r => if cond r then f r else r), statusMatchesTimeline r' := by
  intro r' hr'
  rcases List.mem_map.mp hr' with ⟨r, hr, hrr⟩
  by_cases hc : cond r
  · rw [if_pos hc] at hrr
    exact hrr ▸ hf r
  · rw [if_neg hc] at hrr
    exact hrr ▸ hl r hr

theorem bulkUpdate_ok_elim (uid : UserId) (ids : List ReportId) (s : Status)
    (c : Option String) (now : Int) (st : Store) (out : BulkOutcome)
    (h : bulkUpdateReportStatus uid ids s c now st = .ok out) :
    ids.isEmpty = false ∧ ids.all isValidObjectId = true ∧
    (bulkFound ids st).isEmpty = false ∧
    out = { store := { st with reports := st.reports.map (fun r =>
              if ids.contains r.id then
                r.addTimelineEvent s
                  (c.getD ("Bulk status update to " ++ statusToStr s)) uid now
              else r) }
            notes := (bulkFound ids st).filterMap (fun r =>
              if s = Status.resolved then some (resolvedNote r) else none)
            count := (bulkFound ids st).length } := by
  unfold bulkUpdateReportStatus at h
  by_cases h1 : ids.isEmpty = true
  · rw [if_pos h1] at h
    exact absurd h (by simp)
  · rw [if_neg h1] at h
    by_cases h2 : ids.all isValidObjectId = true
    · rw [if_neg (not_not_intro h2)] at h
      by_cases h3 : (bulkFound ids st).isEmpty = true
      · rw [if_pos h3] at h
        exact absurd h (by simp)
      · rw [if_neg h3] at h
        cases h
        exact ⟨by simpa using h1, h2, by simpa using h3, rfl⟩
    · rw [if_pos h2] at h
      exact absurd h (by simp)

theorem bulkAssign_ok_elim (uid : UserId) (ids : List ReportId) (aid : String)
    (now : Int) (st : Store) (out : BulkOutcome)
    (h : bulkAssignReports uid ids aid now st = .ok out) :
    ids.isEmpty = false ∧ isValidObjectId aid = true ∧
    ids.all isValidObjectId = true ∧
    ∃ assignee, st.users.find? (fun u => u.id = aid) = some assignee ∧
      assignee.role = Role.employee ∧
      (bulkFound ids st).isEmpty = false ∧
      out = { store := { st with reports := st.reports.map (fun r =>
                if ids.contains r.id then
                  ({ r with assignedTo := some aid } : Report).addTimelineEvent
                    Status.assigned
                    ("Assigned to " ++ assignee.firstName ++ " " ++ assignee.lastName)
                    uid now
                else r) }
              notes := (bulkFound ids st).map (assignNote aid)
              count := (bulkFound ids st).length } := by
  unfold bulkAssignReports at h
  by_cases h1 : ids.isEmpty = true
  · rw [if_pos h1] at h
    exact absurd h (by simp)
  · rw [if_neg h1] at h
    by_cases h2 : isValidObjectId aid = true
    · rw [if_neg (not_not_intro h2)] at h
      by_cases h3 : ids.all isValidObjectId = true
      · rw [if_neg (not_not_intro h3)] at h
        rcases hfind : st.users.find? fun u => u.id = aid with _ | assignee
        · rw [hfind] at h
          exact absurd h (by simp)
        · rw [hfind] at h
          simp only [] at h
          by_cases h4 : assignee.role = Role.employee
          · rw [if_neg (not_not_intro h4)] at h
            by_cases h5 : (bulkFound ids st).isEmpty = true
            · rw [if_pos h5] at h
              exact absurd h (by simp)
            · rw [if_neg h5] at h
              cases h
              exact ⟨by simpa using h1, h2, h3,
                assignee, hfind, h4, by simpa using h5, rfl⟩
          · rw [if_pos h4] at h
            exact absurd h (by simp)
      · rw [if_pos h3] at h
        exact absurd h (by simp)
    · rw [if_pos h2] at h
      exact absurd h (by simp)

theorem bulkDelete_ok_elim (uid : UserId) (ids : List ReportId)
    (reason : Option String) (now : Int) (st : Store) (out : BulkOutcome)
    (h : bulkDeleteReports uid ids reason now st = .ok out) :
    ids.isEmpty = false ∧ ids.all isValidObjectId = true ∧
    (bulkFound ids st).isEmpty = false ∧
    out = { store := { st with reports := st.reports.map (fun r =>
              if ids.contains r.id then
                r.addTimelineEvent Status.closed
                  (reason.getD "Report closed by administrator") uid now
              else r) }
            notes := (bulkFound ids st).map closedNote
            count := (bulkFound ids st).length } := by
  unfold bulkDeleteReports at h
  by_cases h1 : ids.isEmpty = true
  · rw [if_pos h1] at h
    exact absurd h (by simp)
  · rw [if_neg h1] at h
    by_cases h2 : ids.all isValidObjectId = true
    · rw [if_neg (not_not_intro h2)] at h
      by_cases h3 : (bulkFound ids st).isEmpty = true
      · rw [if_pos h3] at h
        exact absurd h (by simp)
      · rw [if_neg h3] at h
        cases h
        exact ⟨by simpa using h1, h2, by simpa using h3, rfl⟩
    · rw [if_pos h2] at h
      exact absurd h (by simp)

theorem bulkUpdate_ok_statusMatches (uid : UserId) (ids : List ReportId)
    (s : Status) (c : Option String) (now : Int) (st : Store) (out : BulkOutcome)
    (h : bulkUpdateReportStatus uid ids s c now st = .ok out)
    (hinv : ∀ r ∈ st.reports, statusMatchesTimeline r) :
    ∀ r' ∈ out.store.reports, statusMatchesTimeline r' := by
  obtain ⟨-, -, -, rfl⟩ := bulkUpdate_ok_elim uid ids s c now st out h
  exact mem_map_update_statusMatches _ _ _
    (fun r => addTimelineEvent_statusMatches ..) hinv

theorem bulkAssign_ok_statusMatches (uid : UserId) (ids : List ReportId)
    (aid : String) (now : Int) (st : Store) (out : BulkOutcome)
    (h : bulkAssignReports uid ids aid now st = .ok out)
    (hinv : ∀ r ∈ st.reports, statusMatchesTimeline r) :
    ∀ r' ∈ out.store.reports, statusMatchesTimeline r' := by
  obtain ⟨-, -, -, assignee, -, -, -, rfl⟩ := bulkAssign_ok_elim uid ids aid now st out h
  exact mem_map_update_statusMatches _ _ _
    (fun r => addTimelineEvent_statusMatches ..) hinv

theorem bulkDelete_ok_statusMatches (uid : UserId) (ids : List ReportId)
    (reason : Option String) (now : Int) (st : Store) (out : BulkOutcome)
    (h : bulkDeleteReports uid ids reason now st = .ok out)
    (hinv : ∀ r ∈ st.reports, statusMatchesTimeline r) :
    ∀ r' ∈ out.store.reports, statusMatchesTimeline r' := by
  obtain ⟨-, -, -, rfl⟩ := bulkDelete_ok_elim uid ids reason now st out h
  exact mem_map_update_statusMatches _ _ _
    (fun r => addTimelineEvent_statusMatches ..) hinv

/-- C1: after every status-transition operation — single status update,
assignment, feedback closing, and each of the bulk operations — every
report's `status` equals the status of the last entry of its timeline (for
bulk operations, provided every stored report satisfied the invariant
before). -/
theorem C1_status_matches_last_timeline :
    (∀ role uid s c now r out, updateReportStatus role uid s c now r = .ok out →
        statusMatchesTimeline out.1) ∧
    (∀ callerRole caller employee c now r out,
        assignReport callerRole caller employee c now r = .ok out →
        statusMatchesTimeline out.1) ∧
    (∀ uid rating c now r out, addFeedback uid rating c now r = .ok out →
        statusMatchesTimeline out.1) ∧
    (∀ uid ids s c now st out, bulkUpdateReportStatus uid ids s c now st = .ok out →
        (∀ r ∈ st.reports, statusMatchesTimeline r) →
        ∀ r' ∈ out.store.reports, statusMatchesTimeline r') ∧
    (∀ uid ids aid now st out, bulkAssignReports uid ids aid now st = .ok out →
        (∀ r ∈ st.reports, statusMatchesTimeline r) →
        ∀ r' ∈ out.store.reports, statusMatchesTimeline r') ∧
    (∀ uid ids reason now st out, bulkDeleteReports uid ids reason now st = .ok out →
        (∀ r ∈ st.reports, statusMatchesTimeline r) →
        ∀ r' ∈ out.store.reports, statusMatchesTimeline r') :=
  ⟨fun _ _ _ _ _ _ _ h => updateReportStatus_ok_statusMatches _ _ _ _ _ _ _ h,
   fun _ _ _ _ _ _ _ h => assignReport_ok_statusMatches _ _ _ _ _ _ _ h,
   fun _ _ _ _ _ _ h => addFeedback_ok_statusMatches _ _ _ _ _ _ h,
   fun _ _ _ _ _ _ _ h hinv => bulkUpdate_ok_statusMatches _ _ _ _ _ _ _ h hinv,
   fun _ _ _ _ _ _ h hinv => bulkAssign_ok_statusMatches _ _ _ _ _ _ h hinv,
   fun _ _ _ _ _ _ h hinv => bulkDelete_ok_statusMatches _ _ _ _ _ _ h hinv⟩

/-- Witness for C1: a concrete admin status update on `rC2`. -/
theorem C1_witness :
    statusMatchesTimeline
      ((updateReportStatus Role.admin "a1" Status.resolved "done" 9 rC2).toOption.getD
        (rC2, noteDefault)).1 :=
  C1_status_matches_last_timeline.1 Role.admin "a1" Status.resolved "done" 9 rC2
    ((updateReportStatus Role.admin "a1" Status.resolved "done" 9 rC2).toOption.getD
      (rC2, noteDefault)) (by rfl)

/-! ### C2: employee status updates -/

/-- C2 counterexample: `rC2` is unassigned and in status `submitted`, yet an
employee's request to set its status to `in_progress` succeeds and appends a
timeline entry — the handler only rejects employees when the report is
assigned to a *different* employee, so an unassigned report is mutable, not
visibility-only. -/
theorem C2_counterexample :
    rC2.assignedTo = none ∧ rC2.status = Status.submitted ∧
    (updateReportStatus Role.employee "e1" Status.in_progress "started" 5 rC2).toOption.map
      (fun o => (o.1.status, o.1.timeline.length)) = some (Status.in_progress, 2) := by
  exact ⟨rfl, rfl, rfl⟩

/-- C2 amended: an employee's status-update request is rejected with
Forbidden exactly when the report is assigned to a different employee; on an
unassigned or self-assigned report the employee may mutate (the code has no
visibility-only restriction for unassigned reports), but only to
`in_progress` or `resolved` — any other target is rejected with 400; and a
rejected request (for any role) leaves the store, hence the report's
timeline, unchanged. -/
theorem updateReportStatus_user_eq (uid : UserId) (s : Status) (c : String)
    (now : Int) (r : Report) :
    updateReportStatus Role.user uid s c now r =
      if s ≠ Status.closed ∨ r.status ≠ Status.resolved then .error .forbidden
      else .ok (updateReportStatus.mk uid s c now r) := rfl

theorem updateReportStatus_employee_eq (uid : UserId) (s : Status) (c : String)
    (now : Int) (r : Report) :
    updateReportStatus Role.employee uid s c now r =
      if updateReportStatus.assignedToOther r uid then .error .forbidden
      else if ¬(s = Status.in_progress ∨ s = Status.resolved) then .error .badRequest
      else .ok (updateReportStatus.mk uid s c now r) := rfl

theorem updateReportStatus_admin_eq (uid : UserId) (s : Status) (c : String)
    (now : Int) (r : Report) :
    updateReportStatus Role.admin uid s c now r =
      .ok (updateReportStatus.mk uid s c now r) := rfl

theorem C2_amended_employee_update_policy :
    (∀ uid s c now (r : Report) e, r.assignedTo = some e → e ≠ uid →
        updateReportStatus Role.employee uid s c now r = .error .forbidden) ∧
    (∀ uid s c now (r : Report), (r.assignedTo = none ∨ r.assignedTo = some uid) →
        (s = Status.in_progress ∨ s = Status.resolved) →
        ∃ note, updateReportStatus Role.employee uid s c now r =
          .ok (r.addTimelineEvent s c uid now, note)) ∧
    (∀ uid s c now (r : Report), (r.assignedTo = none ∨ r.assignedTo = some uid) →
        ¬(s = Status.in_progress ∨ s = Status.resolved) →
        updateReportStatus Role.employee uid s c now r = .error .badRequest) ∧
    (∀ role uid rid s c now st e,
        (updateReportStatusInStore role uid rid s c now st).2 = some e →
        (updateReportStatusInStore role uid rid s c now st).1 = st) := by
  refine ⟨?_, ?_, ?_, ?_⟩
  · intro uid s c now r e hassign hne
    have hcond : updateReportStatus.assignedToOther r uid = true := by
      unfold updateReportStatus.assignedToOther
      rw [hassign]
      simpa using hne
    rw [updateReportStatus_employee_eq, if_pos hcond]
  · intro uid s c now r hassign hs
    have hcond : updateReportStatus.assignedToOther r uid = false := by
      unfold updateReportStatus.assignedToOther
      rcases hassign with h | h <;> rw [h] <;> simp
    exact ⟨(updateReportStatus.mk uid s c now r).2, by
      rw [updateReportStatus_employee_eq, if_neg (by simp [hcond]),
        if_neg (not_not_intro hs)]
      rfl⟩
  · intro uid s c now r hassign hs
    have hcond : updateReportStatus.assignedToOther r uid = false := by
      unfold updateReportStatus.assignedToOther
      rcases hassign with h | h <;> rw [h] <;> simp
    rw [updateReportStatus_employee_eq, if_neg (by simp [hcond]), if_pos hs]
  · intro role uid rid s c now st e h
    unfold updateReportStatusInStore at h ⊢
    rcases hfind : st.reports.find? fun r => r.id = rid with _ | r
    · rw [hfind]
    · rw [hfind] at h ⊢
      simp only [] at h ⊢
      rcases hupd : updateReportStatus role uid s c now r with e' | out
      · rfl
      · rcases out with ⟨r', n⟩
        rw [hupd] at h
        simp at h

/-- Witness for C2's amended theorem at concrete inputs. -/
theorem C2_amended_witness :
    updateReportStatus Role.employee "e1" Status.resolved "c" 7
        { rC2 with assignedTo := some "e2" } = .error .forbidden ∧
    (∃ note, updateReportStatus Role.employee "e1" Status.resolved "c" 7 rC2 =
        .ok (rC2.addTimelineEvent Status.resolved "c" "e1" 7, note)) ∧
    updateReportStatus Role.employee "e1" Status.closed "c" 7 rC2 = .error .badRequest ∧
    (updateReportStatusInStore Role.user "u9" rC2.id Status.closed "c" 7
        { reports := [rC2], users := [] }).1 = { reports := [rC2], users := [] } := by
  refine ⟨?_, ?_, ?_, ?_⟩
  · exact C2_amended_employee_update_policy.1 "e1" Status.resolved "c" 7
      { rC2 with assignedTo := some "e2" } "e2" rfl (by decide)
  · exact C2_amended_employee_update_policy.2.1 "e1" Status.resolved "c" 7 rC2
      (Or.inl rfl) (Or.inr rfl)
  · exact C2_amended_employee_update_policy.2.2.1 "e1" Status.closed "c" 7 rC2
      (Or.inl rfl) (by decide)
  · exact C2_amended_employee_update_policy.2.2.2 Role.user "u9" rC2.id Status.closed
      "c" 7 { reports := [rC2], users := [] } Err.forbidden (by rfl)

/-! ### C3: feedback -/

/-- A resolved report submitted by "u1" and assigned to "e1". -/
def rC3 : Report :=
  { rC2 with
    status := .resolved
    assignedTo := some "e1"
    timeline := rC2.timeline ++
      [{ status := .resolved, timestamp := 50, comment := "done", updatedBy := "e1" }] }

theorem addFeedback_ok_elim (uid : UserId) (rating : Nat) (c : String)
    (now : Int) (r : Report) (out : Report × List Notification)
    (h : addFeedback uid rating c now r = .ok out) :
    r.submittedBy = uid ∧ r.status = Status.resolved ∧
    out = (({ r with feedback := some { rating := rating, comment := c, submittedAt := now } }
              : Report).addTimelineEvent Status.closed
              "Feedback provided and report closed" uid now,
           match r.assignedTo with
           | some e => [feedbackNote e r]
           | none => []) := by
  unfold addFeedback at h
  by_cases h1 : r.submittedBy = uid
  · rw [if_neg (not_not_intro h1)] at h
    by_cases h2 : r.status = Status.resolved
    · rw [if_neg (not_not_intro h2)] at h
      cases h
      exact ⟨h1, h2, rfl⟩
    · rw [if_pos h2] at h
      exact absurd h (by simp)
  · rw [if_pos h1] at h
    exact absurd h (by simp)

/-- The state after the submitter's first feedback on `rC3`. -/
def c3First : Report × List Notification :=
  (addFeedback "u1" 5 "great" 100 rC3).toOption.getD (rC3, [])

/-- The state after an admin sets the closed report back to `resolved`. -/
def c3Reopened : Report :=
  ((updateReportStatus Role.admin "a1" Status.resolved "reopening" 200 c3First.1).toOption.map
    Prod.fst).getD c3First.1

/-- C3 counterexample: feedback is NOT attachable at most once.  The
submitter's first feedback on `rC3` succeeds; after an admin sets the status
back to `resolved` (which admins may always do), a second feedback
submission by the submitter succeeds again and overwrites the stored
feedback — the handler has no feedback-presence check. -/
theorem C3_counterexample :
    (addFeedback "u1" 5 "great" 100 rC3).toOption.isSome = true ∧
    c3First.1.feedback = some { rating := 5, comment := "great", submittedAt := 100 } ∧
    (addFeedback "u1" 2 "worse" 300 c3Reopened).toOption.map (fun o => o.1.feedback) =
      some (some { rating := 2, comment := "worse", submittedAt := 300 }) :=
  ⟨rfl, rfl, rfl⟩

/-- C3 amended: feedback is accepted exactly from the submitter on a report
whose current status is `resolved`; a successful submission stores the
feedback and closes the report, so an *immediate* second submission by the
submitter is rejected with 400 (InvalidArgument) and one by anyone else with
403, each without mutation; but because the handler does not check for an
existing feedback, "at most once" holds only while the status never returns
to `resolved` — an admin status update re-enables feedback and a second
submission then overwrites the first (see the counterexample). -/
theorem C3_amended_feedback_policy :
    (∀ uid rating c now (r : Report),
        (∃ out, addFeedback uid rating c now r = .ok out) ↔
          (r.submittedBy = uid ∧ r.status = Status.resolved)) ∧
    (∀ uid rating c now r out, addFeedback uid rating c now r = .ok out →
        out.1.feedback = some { rating := rating, comment := c, submittedAt := now } ∧
        out.1.status = Status.closed ∧
        out.1.submittedBy = r.submittedBy ∧
        (∀ uid' rating' c' now', out.1.submittedBy = uid' →
            addFeedback uid' rating' c' now' out.1 = .error .badRequest) ∧
        (∀ uid' rating' c' now', out.1.submittedBy ≠ uid' →
            addFeedback uid' rating' c' now' out.1 = .error .forbidden)) := by
  constructor
  · intro uid rating c now r
    constructor
    · rintro ⟨out, h⟩
      obtain ⟨h1, h2, -⟩ := addFeedback_ok_elim uid rating c now r out h
      exact ⟨h1, h2⟩
    · rintro ⟨h1, h2⟩
      refine ⟨(({ r with feedback := some { rating := rating, comment := c, submittedAt := now } }
          : Report).addTimelineEvent Status.closed "Feedback provided and report closed" uid now,
        match r.assignedTo with
        | some e => [feedbackNote e r]
        | none => []), ?_⟩
      unfold addFeedback
      rw [if_neg (not_not_intro h1), if_neg (not_not_intro h2)]
  · intro uid rating c now r out h
    obtain ⟨h1, h2, rfl⟩ := addFeedback_ok_elim uid rating c now r out h
    refine ⟨rfl, rfl, rfl, ?_, ?_⟩
    · intro uid' rating' c' now' hsub
      unfold addFeedback
      rw [if_neg (not_not_intro hsub), if_pos (by simp [Report.addTimelineEvent])]
    · intro uid' rating' c' now' hsub
      unfold addFeedback
      rw [if_pos hsub]

/-- Witness for C3's amended theorem: the first feedback on `rC3`. -/
theorem C3_amended_witness :
    (∃ out, addFeedback "u1" 5 "great" 100 rC3 = .ok out) ∧
    ((addFeedback "u1" 5 "great" 100 rC3).toOption.getD (rC3, [])).1.status = Status.closed := by
  constructor
  · exact (C3_amended_feedback_policy.1 "u1" 5 "great" 100 rC3).mpr ⟨rfl, rfl⟩
  · exact (C3_amended_feedback_policy.2 "u1" 5 "great" 100 rC3
      ((addFeedback "u1" 5 "great" 100 rC3).toOption.getD (rC3, [])) (by rfl)).2.1

/-! ### C4: resolution-time aggregates -/

/-- A report created at time 0 whose first `resolved` timeline entry is 48
hours (172800000 ms) later, with an additional later `resolved` entry (as an
image upload on a resolved report produces). -/
def rC4 : Report :=
  { rC2 with
    status := .resolved
    timeline :=
      [{ status := .submitted, timestamp := 0, comment := "Report submitted", updatedBy := "u1" },
       { status := .resolved, timestamp := 172800000, comment := "fixed", updatedBy := "e1" },
       { status := .resolved, timestamp := 360000000, comment := "1 image(s) uploaded", updatedBy := "e1" }]
    createdAt := 0 }

/-- C4: on the same single-report collection — created at T0, first
`resolved` timeline entry at T0+48h — `getSystemStatistics` reports an
average resolution time of 48 hours, as the claim describes, but
`getDashboardAnalytics` reports 0: its pipeline takes the JavaScript
property `.timestamp` of an object literal (which is `undefined`, serialized
as null) instead of the Mongo field, so its `$subtract` yields null for
every report and the displayed average is always 0. -/
theorem ratFloor_eq_intFloor (q : ℚ) : Rat.floor q = ⌊q⌋ :=
  (Rat.floor_def' q).trans Rat.floor_def.symm

theorem C4_resolution_time_divergence :
    systemStatsAvgResolutionHours [rC4] = 48 ∧
    dashboardAvgResolutionHours [rC4] = 0 := by
  constructor
  · have hsys : systemStatsAvgResolutionHours [rC4] =
        jsRound (((172800000 : Int) : Rat) / ((1 : Nat) : Rat) / (1000 * 60 * 60)) := rfl
    rw [hsys, jsRound, ratFloor_eq_intFloor]
    norm_num
  · rfl

/-! ### C5: bulk-operation validation -/

theorem mem_map_ite_self {l : List Report} {r : Report} (f : Report → Report)
    (cond : Report → Bool) (hr : r ∈ l) (hc : cond r = false) :
    r ∈ l.map fun x => if cond x then f x else x :=
  List.mem_map.mpr ⟨r, hr, by rw [hc]; simp⟩

/-- A fallback bulk outcome, used only as a `getD` default in closed
statements. -/
def bulkOutcomeDefault : BulkOutcome :=
  { store := { reports := [], users := [] }, notes := [], count := 0 }

/-- C5: in each bulk operation (status update, assignment, soft delete): an
empty id list is rejected with 400 for every store, i.e. before any read; a
list containing any syntactically invalid ObjectId is rejected wholesale
with 400; when all ids are valid but none resolves to a stored report the
call fails with 404; and on success the reported count is the size of the
found subset while every stored report whose id was not supplied is left
untouched. -/
theorem C5_bulk_validation :
    (∀ uid s c now st, bulkUpdateReportStatus uid [] s c now st = .error .badRequest) ∧
    (∀ uid ids s c now st, ids.isEmpty = false → ids.all isValidObjectId = false →
        bulkUpdateReportStatus uid ids s c now st = .error .badRequest) ∧
    (∀ uid ids s c now st, ids.isEmpty = false → ids.all isValidObjectId = true →
        (bulkFound ids st).isEmpty = true →
        bulkUpdateReportStatus uid ids s c now st = .error .notFound) ∧
    (∀ uid ids s c now st out, bulkUpdateReportStatus uid ids s c now st = .ok out →
        out.count = (bulkFound ids st).length ∧
        ∀ r ∈ st.reports, ids.contains r.id = false → r ∈ out.store.reports) ∧
    (∀ uid aid now st, bulkAssignReports uid [] aid now st = .error .badRequest) ∧
    (∀ uid ids aid now st, ids.isEmpty = false → ids.all isValidObjectId = false →
        bulkAssignReports uid ids aid now st = .error .badRequest) ∧
    (∀ uid ids aid now st assignee, ids.isEmpty = false →
        isValidObjectId aid = true → ids.all isValidObjectId = true →
        st.users.find? (fun u => u.id = aid) = some assignee →
        assignee.role = Role.employee → (bulkFound ids st).isEmpty = true →
        bulkAssignReports uid ids aid now st = .error .notFound) ∧
    (∀ uid ids aid now st out, bulkAssignReports uid ids aid now st = .ok out →
        out.count = (bulkFound ids st).length ∧
        ∀ r ∈ st.reports, ids.contains r.id = false → r ∈ out.store.reports) ∧
    (∀ uid reason now st, bulkDeleteReports uid [] reason now st = .error .badRequest) ∧
    (∀ uid ids reason now st, ids.isEmpty = false → ids.all isValidObjectId = false →
        bulkDeleteReports uid ids reason now st = .error .badRequest) ∧
    (∀ uid ids reason now st, ids.isEmpty = false → ids.all isValidObjectId = true →
        (bulkFound ids st).isEmpty = true →
        bulkDeleteReports uid ids reason now st = .error .notFound) ∧
    (∀ uid ids reason now st out, bulkDeleteReports uid ids reason now st = .ok out →
        out.count = (bulkFound ids st).length ∧
        ∀ r ∈ st.reports, ids.contains r.id = false → r ∈ out.store.reports) := by
  refine ⟨?_, ?_, ?_, ?_, ?_, ?_, ?_, ?_, ?_, ?_, ?_, ?_⟩
  · intro uid s c now st
    rfl
  · intro uid ids s c now st h1 h2
    unfold bulkUpdateReportStatus
    rw [if_neg (by simp [h1]), if_pos (by simp [h2])]
  · intro uid ids s c now st h1 h2 h3
    unfold bulkUpdateReportStatus
    rw [if_neg (by simp [h1]), if_neg (not_not_intro h2), if_pos h3]
  · intro uid ids s c now st out h
    obtain ⟨-, -, -, rfl⟩ := bulkUpdate_ok_elim uid ids s c now st out h
    exact ⟨rfl, fun r hr hc => mem_map_ite_self _ _ hr hc⟩
  · intro uid aid now st
    rfl
  · intro uid ids aid now st h1 h2
    unfold bulkAssignReports
    by_cases ha : isValidObjectId aid = true
    · rw [if_neg (by simp [h1]), if_neg (not_not_intro ha), if_pos (by simp [h2])]
    · rw [if_neg (by simp [h1]), if_pos (by simpa using ha)]
  · intro uid ids aid now st assignee h1 h2 h3 hfind hrole h4
    unfold bulkAssignReports
    rw [if_neg (by simp [h1]), if_neg (not_not_intro h2), if_neg (not_not_intro h3),
      hfind]
    simp only []
    rw [if_neg (not_not_intro hrole), if_pos h4]
  · intro uid ids aid now st out h
    obtain ⟨-, -, -, assignee, -, -, -, rfl⟩ := bulkAssign_ok_elim uid ids aid now st out h
    exact ⟨rfl, fun r hr hc => mem_map_ite_self _ _ hr hc⟩
  · intro uid reason now st
    rfl
  · intro uid ids reason now st h1 h2
    unfold bulkDeleteReports
    rw [if_neg (by simp [h1]), if_pos (by simp [h2])]
  · intro uid ids reason now st h1 h2 h3
    unfold bulkDeleteReports
    rw [if_neg (by simp [h1]), if_neg (not_not_intro h2), if_pos h3]
  · intro uid ids reason now st out h
    obtain ⟨-, -, -, rfl⟩ := bulkDelete_ok_elim uid ids reason now st out h
    exact ⟨rfl, fun r hr hc => mem_map_ite_self _ _ hr hc⟩

/-- Witness for C5 at concrete inputs: an empty list, a malformed id, a
valid-but-unknown id, and a successful call on a two-id list where only one
id resolves. -/
theorem C5_witness :
    bulkUpdateReportStatus "a1" [] Status.closed none 0 { reports := [rC2], users := [] } =
      .error .badRequest ∧
    bulkUpdateReportStatus "a1" ["not-an-id!"] Status.closed none 0
      { reports := [rC2], users := [] } = .error .badRequest ∧
    bulkUpdateReportStatus "a1" ["bbbbbbbbbbbbbbbbbbbbbbbb"] Status.closed none 0
      { reports := [rC2], users := [] } = .error .notFound ∧
    ((bulkUpdateReportStatus "a1" ["aaaaaaaaaaaaaaaaaaaaaaaa", "bbbbbbbbbbbbbbbbbbbbbbbb"]
        Status.closed none 0 { reports := [rC2], users := [] }).toOption.getD
      bulkOutcomeDefault).count =
      (bulkFound ["aaaaaaaaaaaaaaaaaaaaaaaa", "bbbbbbbbbbbbbbbbbbbbbbbb"]
        { reports := [rC2], users := [] }).length := by
  refine ⟨?_, ?_, ?_, ?_⟩
  · exact C5_bulk_validation.1 "a1" Status.closed none 0 { reports := [rC2], users := [] }
  · exact C5_bulk_validation.2.1 "a1" ["not-an-id!"] Status.closed none 0
      { reports := [rC2], users := [] } rfl rfl
  · exact C5_bulk_validation.2.2.1 "a1" ["bbbbbbbbbbbbbbbbbbbbbbbb"] Status.closed none 0
      { reports := [rC2], users := [] } rfl rfl rfl
  · exact (C5_bulk_validation.2.2.2.1 "a1"
      ["aaaaaaaaaaaaaaaaaaaaaaaa", "bbbbbbbbbbbbbbbbbbbbbbbb"] Status.closed none 0
      { reports := [rC2], users := [] } _ (by rfl)).1

/-! ### C6: visibility scope of the no-filter search -/

theorem mem_insertByCreatedAtDesc {x r : Report} {l : List Report} :
    x ∈ insertByCreatedAtDesc r l ↔ x = r ∨ x ∈ l := by
  induction l with
  | nil => simp [insertByCreatedAtDesc]
  | cons y ys ih =>
    unfold insertByCreatedAtDesc
    split
    · simp
    · rw [List.mem_cons, ih, List.mem_cons]
      tauto

theorem mem_sortByCreatedAtDesc {x : Report} {l : List Report} :
    x ∈ sortByCreatedAtDesc l ↔ x ∈ l := by
  induction l with
  | nil => simp [sortByCreatedAtDesc]
  | cons y ys ih =>
    unfold sortByCreatedAtDesc
    rw [mem_insertByCreatedAtDesc, ih, List.mem_cons]

theorem roleScope_eq_spec (role : Role) (uid : UserId) (r : Report) :
    roleScope role uid r = specVisibilityScope role uid r := by
  cases role <;> rfl

theorem ceilDiv_spec (total limit : Nat) (h : 0 < limit) :
    total ≤ limit * ceilDiv total limit ∧
    (0 < total → limit * (ceilDiv total limit - 1) < total) := by
  unfold ceilDiv
  have hd := Nat.div_add_mod (total + limit - 1) limit
  have hm : (total + limit - 1) % limit < limit := Nat.mod_lt _ h
  rcases hq : (total + limit - 1) / limit with _ | n <;> rw [hq] at hd
  · simp only [Nat.mul_zero] at *
    omega
  · have hs : limit * (n + 1) = limit * n + limit := Nat.mul_succ ..
    simp only [Nat.succ_sub_one] at *
    omega

/-- C6: with no user-supplied filters, `getReports` matches exactly the
caller's visibility scope as the spec words it (admin: all; employee:
assigned to self or unassigned in submitted/in_review; user: own reports
only); with filters, the match predicate is the conjunction of the
visibility scope and the user filters (role pre-filtering); and the result
page is the `(page-1)*limit` slice of the scope with correct counts and a
true ceiling `totalPages`. -/
theorem C6_no_filter_search_scope :
    (∀ page limit role uid (r : Report),
        matchesGetReports
          { status := none, category := none, priority := none, page := page, limit := limit }
          role uid r = specVisibilityScope role uid r) ∧
    (∀ p role uid (r : Report),
        matchesGetReports p role uid r =
          (specVisibilityScope role uid r && matchesUserFilters p r)) ∧
    (∀ page limit role uid reports, 0 < limit →
        (getReports
            { status := none, category := none, priority := none, page := page, limit := limit }
            role uid reports).total =
          (reports.filter (specVisibilityScope role uid)).length ∧
        (getReports
            { status := none, category := none, priority := none, page := page, limit := limit }
            role uid reports).reports =
          ((sortByCreatedAtDesc (reports.filter (specVisibilityScope role uid))).drop
            ((page - 1) * limit)).take limit ∧
        (∀ r ∈ (getReports
            { status := none, category := none, priority := none, page := page, limit := limit }
            role uid reports).reports, specVisibilityScope role uid r = true) ∧
        (getReports
            { status := none, category := none, priority := none, page := page, limit := limit }
            role uid reports).pagination.currentPage = page ∧
        (getReports
            { status := none, category := none, priority := none, page := page, limit := limit }
            role uid reports).total ≤
          limit * (getReports
            { status := none, category := none, priority := none, page := page, limit := limit }
            role uid reports).pagination.totalPages ∧
        (0 < (getReports
            { status := none, category := none, priority := none, page := page, limit := limit }
            role uid reports).total →
          limit * ((getReports
            { status := none, category := none, priority := none, page := page, limit := limit }
            role uid reports).pagination.totalPages - 1) <
          (getReports
            { status := none, category := none, priority := none, page := page, limit := limit }
            role uid reports).total)) := by
  have hmatch : ∀ page limit role uid (r : Report),
      matchesGetReports
        { status := none, category := none, priority := none, page := page, limit := limit }
        role uid r = specVisibilityScope role uid r := by
    intro page limit role uid r
    unfold matchesGetReports matchesUserFilters
    rw [roleScope_eq_spec]
    simp
  refine ⟨hmatch, ?_, ?_⟩
  · intro p role uid r
    unfold matchesGetReports
    rw [roleScope_eq_spec, Bool.and_comm]
  · intro page limit role uid reports hlim
    have hfilter : reports.filter
        (matchesGetReports
          { status := none, category := none, priority := none, page := page, limit := limit }
          role uid) = reports.filter (specVisibilityScope role uid) :=
      List.filter_congr fun r _ => hmatch page limit role uid r
    unfold getReports
    simp only [hfilter]
    refine ⟨by trivial, by trivial, ?_, by trivial, ?_, ?_⟩
    · intro r hr
      have hr1 : r ∈ sortByCreatedAtDesc (reports.filter (specVisibilityScope role uid)) :=
        List.mem_of_mem_drop (List.mem_of_mem_take hr)
      have hr2 := mem_sortByCreatedAtDesc.mp hr1
      exact List.of_mem_filter hr2
    · exact (ceilDiv_spec _ limit hlim).1
    · exact (ceilDiv_spec _ limit hlim).2

/-- Witness for C6 on a concrete two-report store: an employee sees exactly
the unassigned submitted report on page 1. -/
theorem C6_witness :
    (getReports { status := none, category := none, priority := none, page := 1, limit := 10 }
        Role.employee "e1" [rC2, { rC3 with id := "cccccccccccccccccccccccc", assignedTo := some "e2" }]).total =
      ([rC2, { rC3 with id := "cccccccccccccccccccccccc", assignedTo := some "e2" }].filter
        (specVisibilityScope Role.employee "e1")).length := by
  exact (C6_no_filter_search_scope.2.2 1 10 Role.employee "e1"
    [rC2, { rC3 with id := "cccccccccccccccccccccccc", assignedTo := some "e2" }]
    (by decide)).1

/-! ### C7: advanced-search filter semantics -/

/-- A resolved copy of the sample report. -/
def rC7 : Report :=
  { rC2 with status := .resolved }

/-- C7 counterexample: a comma-list is not treated as "is any of".  The
handler only recognizes arrays (repeated query parameters) via
`Array.isArray`; the single string "resolved,closed" is compared literally
against the stored status, so a resolved report does not match, while the
spec's comma-splitting any-of semantics would match it. -/
theorem C7_counterexample :
    matchesAdvanced
      { emptySearchParams with status := some (QueryVal.str "resolved,closed") } rC7 = false ∧
    specCommaAnyOf (some "resolved,closed") (statusToStr rC7.status) = true := by
  constructor
  · rfl
  · decide

/-- C7 amended: an omitted parameter imposes no constraint; an *array* value
(a repeated query parameter) is treated as "is any of"; a plain string —
including a comma-joined list — is a single literal equality, and since no
stored status/category/priority value contains a comma, a comma-joined
string matches no report at all. -/
theorem C7_amended_filter_semantics :
    (∀ r, matchesAdvanced emptySearchParams r = true) ∧
    (∀ (l : List String) (f : String), matchesIn (some (QueryVal.arr l)) f = l.contains f) ∧
    (∀ (v f : String), matchesIn (some (QueryVal.str v)) f = decide (f = v)) ∧
    (∀ (st : Status) (v : String), v.data.contains ',' = true →
        matchesIn (some (QueryVal.str v)) (statusToStr st) = false) ∧
    (∀ (ct : Category) (v : String), v.data.contains ',' = true →
        matchesIn (some (QueryVal.str v)) (categoryToStr ct) = false) ∧
    (∀ (pr : Priority) (v : String), v.data.contains ',' = true →
        matchesIn (some (QueryVal.str v)) (priorityToStr pr) = false) := by
  refine ⟨fun r => rfl, fun l f => rfl, fun v f => rfl, ?_, ?_, ?_⟩
  · intro st v hv
    have hne : statusToStr st ≠ v := by
      intro he
      rw [← he] at hv
      cases st <;> exact absurd hv (by decide)
    simp [matchesIn, hne]
  · intro ct v hv
    have hne : categoryToStr ct ≠ v := by
      intro he
      rw [← he] at hv
      cases ct <;> exact absurd hv (by decide)
    simp [matchesIn, hne]
  · intro pr v hv
    have hne : priorityToStr pr ≠ v := by
      intro he
      rw [← he] at hv
      cases pr <;> exact absurd hv (by decide)
    simp [matchesIn, hne]

/-- Witness for C7's amended theorem at concrete inputs. -/
theorem C7_amended_witness :
    matchesIn (some (QueryVal.str "resolved,closed")) (statusToStr Status.resolved) = false ∧
    matchesIn (some (QueryVal.str "road_issue,other")) (categoryToStr Category.road_issue) = false ∧
    matchesIn (some (QueryVal.str "high,critical")) (priorityToStr Priority.high) = false ∧
    matchesAdvanced emptySearchParams rC2 = true :=
  ⟨C7_amended_filter_semantics.2.2.2.1 Status.resolved "resolved,closed" (by decide),
   C7_amended_filter_semantics.2.2.2.2.1 Category.road_issue "road_issue,other" (by decide),
   C7_amended_filter_semantics.2.2.2.2.2 Priority.high "high,critical" (by decide),
   C7_amended_filter_semantics.1 rC2⟩

/-! ### C8: bulk-operation notifications -/

/-- C8 counterexample: a bulk status update whose outcome status is `closed`
succeeds on one report yet creates zero notifications — the handler only
notifies submitters when the new status is `resolved`, so a "closed" outcome
through `bulkUpdateReportStatus` notifies nobody. -/
theorem C8_counterexample :
    (bulkUpdateReportStatus "a1" ["aaaaaaaaaaaaaaaaaaaaaaaa"] Status.closed none 500
        { reports := [{ rC2 with status := Status.in_progress }], users := [] }).toOption.map
      (fun o => (o.count, o.notes.length)) = some (1, 0) := rfl

/-- C8 amended: in a bulk status update, only a `resolved` outcome creates
notifications — one per found report, addressed to that report's submitter —
while every other outcome status, `closed` included, creates none; the bulk
soft delete (close) creates one submitter notification per found report; and
bulk assignment creates one notification per found report, each addressed to
the new assignee. -/
theorem filterMap_some_map {α β γ : Type} (f : α → β) (g : β → γ) (l : List α) :
    (l.filterMap fun a => some (f a)).map g = l.map fun a => g (f a) := by
  induction l with
  | nil => rfl
  | cons x xs ih => simp [List.filterMap_cons, ih]

theorem C8_amended_bulk_notifications :
    (∀ uid ids c now st out,
        bulkUpdateReportStatus uid ids Status.resolved c now st = .ok out →
        out.notes.map (fun n => n.recipient) =
          (bulkFound ids st).map (fun r => r.submittedBy) ∧
        out.notes.length = out.count) ∧
    (∀ uid ids s c now st out, s ≠ Status.resolved →
        bulkUpdateReportStatus uid ids s c now st = .ok out → out.notes = []) ∧
    (∀ uid ids reason now st out, bulkDeleteReports uid ids reason now st = .ok out →
        out.notes.map (fun n => n.recipient) =
          (bulkFound ids st).map (fun r => r.submittedBy) ∧
        out.notes.length = out.count) ∧
    (∀ uid ids aid now st out, bulkAssignReports uid ids aid now st = .ok out →
        out.notes.length = out.count ∧ ∀ n ∈ out.notes, n.recipient = aid) := by
  refine ⟨?_, ?_, ?_, ?_⟩
  · intro uid ids c now st out h
    obtain ⟨-, -, -, rfl⟩ := bulkUpdate_ok_elim uid ids Status.resolved c now st out h
    constructor
    · rw [show (fun r : Report =>
            if Status.resolved = Status.resolved then some (resolvedNote r) else none) =
          (fun r : Report => some (resolvedNote r)) from by funext r; simp]
      rw [filterMap_some_map]
      simp [resolvedNote]
    · simp
  · intro uid ids s c now st out hs h
    obtain ⟨-, -, -, rfl⟩ := bulkUpdate_ok_elim uid ids s c now st out h
    simp [if_neg hs]
  · intro uid ids reason now st out h
    obtain ⟨-, -, -, rfl⟩ := bulkDelete_ok_elim uid ids reason now st out h
    constructor
    · simp [closedNote]
    · simp
  · intro uid ids aid now st out h
    obtain ⟨-, -, -, assignee, -, -, -, rfl⟩ := bulkAssign_ok_elim uid ids aid now st out h
    constructor
    · simp
    · intro n hn
      obtain ⟨r, -, rfl⟩ := List.mem_map.mp hn
      rfl

/-- Witness for C8's amended theorem: a concrete resolved bulk update, a
closed bulk update, a bulk delete and a bulk assignment. -/
theorem C8_amended_witness :
    ((bulkUpdateReportStatus "a1" ["aaaaaaaaaaaaaaaaaaaaaaaa"] Status.resolved none 7
        { reports := [rC2], users := [] }).toOption.getD bulkOutcomeDefault).notes.map
      (fun n => n.recipient) =
      (bulkFound ["aaaaaaaaaaaaaaaaaaaaaaaa"] { reports := [rC2], users := [] }).map
        (fun r => r.submittedBy) ∧
    ((bulkUpdateReportStatus "a1" ["aaaaaaaaaaaaaaaaaaaaaaaa"] Status.closed none 7
        { reports := [rC2], users := [] }).toOption.getD bulkOutcomeDefault).notes = [] ∧
    ((bulkDeleteReports "a1" ["aaaaaaaaaaaaaaaaaaaaaaaa"] none 7
        { reports := [rC2], users := [] }).toOption.getD bulkOutcomeDefault).notes.length =
      ((bulkDeleteReports "a1" ["aaaaaaaaaaaaaaaaaaaaaaaa"] none 7
        { reports := [rC2], users := [] }).toOption.getD bulkOutcomeDefault).count ∧
    (∀ n ∈ ((bulkAssignReports "a1" ["aaaaaaaaaaaaaaaaaaaaaaaa"] "eeeeeeeeeeeeeeeeeeeeeeee" 7
        { reports := [rC2],
          users := [{ id := "eeeeeeeeeeeeeeeeeeeeeeee", firstName := "Eve"
                      lastName := "Field", email := "eve@x", role := Role.employee
                      isActive := true }] }).toOption.getD bulkOutcomeDefault).notes,
      n.recipient = "eeeeeeeeeeeeeeeeeeeeeeee") := by
  refine ⟨?_, ?_, ?_, ?_⟩
  · exact (C8_amended_bulk_notifications.1 "a1" ["aaaaaaaaaaaaaaaaaaaaaaaa"] none 7
      { reports := [rC2], users := [] } _ (by rfl)).1
  · exact C8_amended_bulk_notifications.2.1 "a1" ["aaaaaaaaaaaaaaaaaaaaaaaa"]
      Status.closed none 7 { reports := [rC2], users := [] } _ (by decide) (by rfl)
  · exact (C8_amended_bulk_notifications.2.2.1 "a1" ["aaaaaaaaaaaaaaaaaaaaaaaa"] none 7
      { reports := [rC2], users := [] } _ (by rfl)).2
  · exact (C8_amended_bulk_notifications.2.2.2 "a1" ["aaaaaaaaaaaaaaaaaaaaaaaa"]
      "eeeeeeeeeeeeeeeeeeeeeeee" 7
      { reports := [rC2],
        users := [{ id := "eeeeeeeeeeeeeeeeeeeeeeee", firstName := "Eve"
                    lastName := "Field", email := "eve@x", role := Role.employee
                    isActive := true }] } _ (by rfl)).2

/-! ### C9: marking notifications read -/

/-- A sample unread notification. -/
def nC9 : Notification :=
  { recipient := "u1", ntype := .system, title := "Role Updated", message := "m"
    relatedTo := none, isRead := false, readAt := none, priority := .normal }

/-- C9 counterexample: a second mark-as-read call is not a no-op.
`markAsRead` sets `readAt` to the current time unconditionally, so calling
it again at time 9 on a notification read at time 5 changes `readAt` from
`some 5` to `some 9`. -/
theorem C9_counterexample :
    (nC9.markAsRead 5).readAt = some 5 ∧
    ((nC9.markAsRead 5).markAsRead 9).readAt = some 9 ∧
    ((nC9.markAsRead 5).markAsRead 9).readAt ≠ (nC9.markAsRead 5).readAt :=
  ⟨rfl, rfl, by decide⟩

/-- C9 amended: once `isRead` becomes true, `readAt` is set and stays set,
and a repeated mark-as-read call changes nothing *except* `readAt`, which it
overwrites with the later call's timestamp — the call is an idempotent no-op
only when repeated at the same instant. -/
theorem C9_amended_markAsRead :
    (∀ (n : Notification) (t : Int),
        (n.markAsRead t).isRead = true ∧ (n.markAsRead t).readAt = some t) ∧
    (∀ (n : Notification) (t t' : Int),
        (n.markAsRead t).markAsRead t' = { n.markAsRead t with readAt := some t' }) ∧
    (∀ (n : Notification) (t : Int), (n.markAsRead t).markAsRead t = n.markAsRead t) :=
  ⟨fun _ _ => ⟨rfl, rfl⟩, fun _ _ _ => rfl, fun _ _ => rfl⟩

/-! ### C10: registration role assignment -/

/-- C10: the public register endpoint creates the account with role
`employee` exactly when the requested role string is "employee" and with
role `user` for every other requested value; in particular a request for
role "admin" succeeds (given a fresh email) but yields a `user` account. -/
theorem C10_register_role :
    ∀ existingEmails firstName lastName email password role newId,
      existingEmails.contains email = false →
      ∃ u, register existingEmails firstName lastName email password role newId = .ok u ∧
        (u.role = Role.employee ↔ role = "employee") ∧
        (role ≠ "employee" → u.role = Role.user) := by
  intro ee fn ln em pw role newId h
  refine ⟨{ id := newId, firstName := fn, lastName := ln, email := em,
            role := if role = "employee" then Role.employee else Role.user,
            isActive := true }, ?_, ?_, ?_⟩
  · unfold register
    rw [if_neg (by rw [h]; simp)]
  · by_cases hrole : role = "employee"
    · simp [hrole]
    · simp [hrole]
  · intro hne
    simp [if_neg hne]

/-- Witness for C10: registering with requested role "admin" yields a
`user` account. -/
theorem C10_witness :
    ∃ u, register [] "Ada" "Lovelace" "ada@x" "pw" "admin" "id1" = .ok u ∧
      u.role = Role.user := by
  obtain ⟨u, hu, -, hother⟩ :=
    C10_register_role [] "Ada" "Lovelace" "ada@x" "pw" "admin" "id1" rfl
  exact ⟨u, hu, hother (by decide)⟩

end Civic
